import Mathlib

/-!
# Verification of the legal-entity management application (`src/app.py`)

This file gives a shallow embedding of the hierarchy / validation logic of
`src/app.py` (a Streamlit + SQLite + pandas application) and settles the
specification's claims about it.

Modelling conventions:
* a row of the `legal_entities` table is the structure `Entity`; the in-memory
  DataFrame snapshot obtained by `load_data("legal_entities")` is a
  `List Entity` in the order the store returns rows;
* SQL `NULL` (pandas `None`/`NaN` in an object column) is `Option.none`;
* comparing a pandas column against the scalar `None` with `==` yields an
  all-False mask (pandas special-cases null scalars; that is why the code
  finds roots with `.isna()`), while comparing against a string matches
  exactly the non-null cells holding that string — embedded as
  `seriesEqScalar`;
* pandas `sort_values('entity_name')` sorts by the single key `entity_name`;
  for the list sizes at hand (and in particular for two-element tie groups,
  where numpy's quicksort falls back to a stable insertion segment) ties keep
  their input order, so it is modelled as the stable `List.insertionSort`
  by `entity_name` only;
* fallible user actions are embedded as `Except`-valued functions; each
  `st.error(...)` call in the source corresponds to one error value, with the
  source's message recorded in the doc comment.
-/

/-- One row of the `legal_entities` table (schema at `src/app.py:23`-`37`):
`abn` (TEXT PRIMARY KEY), `entity_name`, nullable `parent_abn`,
`entity_type`, `status`, `effective_date`, nullable `end_date`, and the four
nullable audit columns. -/
structure Entity where
  abn : String
  entity_name : String
  parent_abn : Option String
  entity_type : String
  status : String
  effective_date : String
  end_date : Option String
  created_by : Option String
  created_date : Option String
  modified_by : Option String
  modified_date : Option String
deriving DecidableEq, Repr

/-- Builds an `Entity` row with the given key fields and all nullable
trailing columns NULL, as the sample rows of `insert_sample_data`
(`src/app.py:148`-`163`) are inserted. -/
def mkEnt (abn entity_name : String) (parent_abn : Option String)
    (entity_type status : String) : Entity :=
  ⟨abn, entity_name, parent_abn, entity_type, status, "2020-01-01",
   none, none, none, none, none⟩

/-- Lexicographic less-or-equal on character lists by code point: Python's
`str` comparison, which is the key order `sort_values` applies to an object
column of strings. -/
def lexLE : List Char → List Char → Bool
  | [], _ => true
  | _ :: _, [] => false
  | a :: as, b :: bs =>
    if a < b then true
    else if b < a then false
    else lexLE as bs

/-- Python string less-or-equal: lexicographic on the code points. -/
def pyStrLE (a b : String) : Bool :=
  lexLE a.data b.data

/-- The sibling comparison used by `sort_values('entity_name')`
(`src/app.py:307`): compare rows by `entity_name` alone. -/
def nameLE (a b : Entity) : Prop :=
  pyStrLE a.entity_name b.entity_name = true

instance : DecidableRel nameLE :=
  fun a b => inferInstanceAs (Decidable (pyStrLE a.entity_name b.entity_name = true))

theorem lexLE_total : ∀ xs ys : List Char, lexLE xs ys = true ∨ lexLE ys xs = true
  | [], _ => Or.inl rfl
  | _ :: _, [] => Or.inr rfl
  | a :: as, b :: bs => by
    rcases lt_trichotomy a b with h | h | h
    · left; simp [lexLE, h]
    · subst h
      rcases lexLE_total as bs with ih | ih
      · left; simp [lexLE, lt_irrefl, ih]
      · right; simp [lexLE, lt_irrefl, ih]
    · right; simp [lexLE, h]

theorem lexLE_trans : ∀ xs ys zs : List Char,
    lexLE xs ys = true → lexLE ys zs = true → lexLE xs zs = true
  | [], _, _ => fun _ _ => rfl
  | _ :: _, [], _ => fun h _ => by simp [lexLE] at h
  | _ :: _, _ :: _, [] => fun _ h => by simp [lexLE] at h
  | a :: as, b :: bs, c :: cs => by
    intro h1 h2
    by_cases hab : a < b
    · -- a < b; from h2, b < c or b = c, either way a < c
      by_cases hbc : b < c
      · simp [lexLE, lt_trans hab hbc]
      · by_cases hcb : c < b
        · simp [lexLE, hbc, hcb] at h2
        · have hbc' : b = c := le_antisymm (not_lt.mp hcb) (not_lt.mp hbc)
          subst hbc'
          simp [lexLE, hab]
    · by_cases hba : b < a
      · simp [lexLE, hab, hba] at h1
      · have hab' : a = b := le_antisymm (not_lt.mp hba) (not_lt.mp hab)
        subst hab'
        simp only [lexLE, if_neg (lt_irrefl a)] at h1
        by_cases hac : a < c
        · simp [lexLE, hac]
        · by_cases hca : c < a
          · simp [lexLE, hac, hca] at h2
          · have hac' : a = c := le_antisymm (not_lt.mp hca) (not_lt.mp hac)
            subst hac'
            simp only [lexLE, if_neg (lt_irrefl a)] at h2 ⊢
            exact lexLE_trans as bs cs h1 h2

instance : IsTotal Entity nameLE :=
  ⟨fun a b => lexLE_total a.entity_name.data b.entity_name.data⟩

instance : IsTrans Entity nameLE :=
  ⟨fun _ _ _ hab hbc => lexLE_trans _ _ _ hab hbc⟩

/-- The elementwise result of pandas `column == scalar` on an object column
of nullable strings: against the scalar `None` the mask is all-False (pandas
never matches a null scalar with `==`), against a string it is true exactly
on the non-null cells holding that string. -/
def seriesEqScalar (cell key : Option String) : Bool :=
  match key with
  | none => false
  | some k =>
    match cell with
    | some c => c == k
    | none => false

/-- Embeds
`filtered_df[filtered_df['parent_abn'] == parent_abn].sort_values('entity_name')`
(`src/app.py:307`): the rows whose `parent_abn` cell compares `==`-equal to
the `parent_abn` argument (no row when the argument is `None`), sorted by
`entity_name`. -/
def childrenOf (filtered_df : List Entity) (parent_abn : Option String) : List Entity :=
  List.insertionSort nameLE
    (filtered_df.filter (fun e => seriesEqScalar e.parent_abn parent_abn))

/-- The recursive tree printer `build_tree(parent_abn, level)`
(`src/app.py:306`-`314`; `display_hierarchy` at `src/app.py:737`-`743` is the
same routine minus emojis): emit each child of `parent_abn` at the current
`level`, then recurse into it.  The Python recursion has no visited-set or
depth guard; every emitted node at depth `d` sits on a `parent_abn` chain of
`d + 1` rows reaching NULL, so on a snapshot with distinct `abn`s the depth
never exceeds the snapshot's length, and `fuel` is set above that bound by
the callers below. -/
def build_tree (fuel : Nat) (filtered_df : List Entity)
    (parent_abn : Option String) (level : Nat) : List (Entity × Nat) :=
  match fuel with
  | 0 => []
  | f + 1 =>
    (childrenOf filtered_df parent_abn).flatMap
      (fun child => (child, level) :: build_tree f filtered_df (some child.abn) (level + 1))

/-- The status/type multiselect filter of the View Hierarchy tab
(`src/app.py:293`-`296`): keep the rows whose `status` is in `status_filter`
and whose `entity_type` is in `entity_type_filter`. -/
def filtered_entities (entities_df : List Entity)
    (status_filter entity_type_filter : List String) : List Entity :=
  entities_df.filter
    (fun e => status_filter.contains e.status && entity_type_filter.contains e.entity_type)

/-- The driver loop of the tree view (`src/app.py:316`-`318`, and identically
`src/app.py:745`-`747`): `parent_entities` are the rows with NULL
`parent_abn` (found with `.isna()`), and the loop body calls
`build_tree(None, 0)` once per root row, ignoring the loop variable.  Each
such call filters with `parent_abn == None`, which matches no row, so every
call emits nothing and the page renders no tree lines for any snapshot. -/
def view_hierarchy_output (filtered_df : List Entity) : List (Entity × Nat) :=
  (filtered_df.filter (fun e => e.parent_abn.isNone)).flatMap
    (fun _ => build_tree (filtered_df.length + 1) filtered_df none 0)

/-- The validation failures of the Add Entity form handler
(`src/app.py:342`-`349`), one constructor per `st.error(...)` call:
`invalidAbn` is `"Please enter a valid 11-digit ABN"` (`src/app.py:344`),
`missingName` is `"Please enter an entity name"` (`src/app.py:346`), and
`duplicateAbn a` is the interpolated `"ABN ... already exists!"`
(`src/app.py:349`). -/
inductive AddErr where
  | invalidAbn
  | missingName
  | duplicateAbn (abn : String)
deriving DecidableEq, Repr

/-- The Add Entity submit handler (`src/app.py:342`-`361`): in order, reject
an empty or non-11-character ABN (Python `not new_abn or len(new_abn) != 11`),
reject an empty name, reject an ABN already present in the snapshot
(`not entities_df.empty and new_abn in entities_df['abn'].values`), and
otherwise run the parameterised INSERT, which appends a row whose
`parent_abn` is NULL when the selectbox sentinel `"None"` was chosen and
whose `created_by` is `'streamlit_user'` (`src/app.py:351`-`357`).  No check
relates `new_parent_abn` to the snapshot. -/
def add_entity_submit (entities_df : List Entity)
    (new_abn new_entity_name new_entity_type new_parent_abn new_status
     new_effective_date : String) : Except AddErr (List Entity) :=
  if new_abn = "" ∨ new_abn.length ≠ 11 then
    Except.error AddErr.invalidAbn
  else if new_entity_name = "" then
    Except.error AddErr.missingName
  else if ¬ entities_df.isEmpty ∧ new_abn ∈ entities_df.map (·.abn) then
    Except.error (AddErr.duplicateAbn new_abn)
  else
    Except.ok (entities_df ++
      [⟨new_abn, new_entity_name,
        (if new_parent_abn = "None" then none else some new_parent_abn),
        new_entity_type, new_status, new_effective_date,
        none, some "streamlit_user", none, none, none⟩])

/-- The table state after the Add Entity action: on a validation error the
handler returns before any `execute_query`, so the stored snapshot is
unchanged; on success it is the inserted snapshot. -/
def add_entity_step (entities_df : List Entity)
    (new_abn new_entity_name new_entity_type new_parent_abn new_status
     new_effective_date : String) : List Entity :=
  match add_entity_submit entities_df new_abn new_entity_name new_entity_type
      new_parent_abn new_status new_effective_date with
  | Except.ok df => df
  | Except.error _ => entities_df

/-- The Delete button handler (`src/app.py:414`-`421`): compute the rows with
`parent_abn == selected_abn`; if any exist, fail with
`"Cannot delete entity with children!"` and do nothing; otherwise run
`DELETE FROM legal_entities WHERE abn = selected_abn`, leaving the rows whose
`abn` differs. -/
def delete_entity_click (entities_df : List Entity) (selected_abn : String) :
    Except String (List Entity) :=
  if ¬ (entities_df.filter (fun e => e.parent_abn == some selected_abn)).isEmpty then
    Except.error "Cannot delete entity with children!"
  else
    Except.ok (entities_df.filter (fun e => e.abn ≠ selected_abn))

/-- The table state after the Delete action: unchanged when the handler
rejects, the filtered snapshot when it deletes. -/
def delete_entity_step (entities_df : List Entity) (selected_abn : String) :
    List Entity :=
  match delete_entity_click entities_df selected_abn with
  | Except.ok df => df
  | Except.error _ => entities_df

/-- The Update Entity submit handler (`src/app.py:399`-`409`):
`UPDATE legal_entities SET entity_name = ?, entity_type = ?, status = ?,
modified_by = ?, modified_date = ? WHERE abn = ?` with
`modified_by = 'streamlit_user'` — each row with the selected `abn` gets
exactly those five columns overwritten; every other row is untouched. -/
def update_entity_submit (entities_df : List Entity)
    (selected_abn edit_name edit_type edit_status modified_date : String) :
    List Entity :=
  entities_df.map (fun e =>
    if e.abn = selected_abn then
      { e with entity_name := edit_name, entity_type := edit_type,
               status := edit_status, modified_by := some "streamlit_user",
               modified_date := some modified_date }
    else e)

/-- The columns the Update Entity handler never writes: key, parent link,
validity dates, and creation audit fields. -/
def frameFields (e : Entity) :
    String × Option String × String × Option String × Option String × Option String :=
  (e.abn, e.parent_abn, e.effective_date, e.end_date, e.created_by, e.created_date)

/-- The Python name `jv_count` read at `src/app.py:694` is bound nowhere in
the program; a lookup of it raises `NameError`.  Embedded as the (empty)
result of looking the name up in the script's namespace. -/
def jv_count? : Option Nat := none

/-- The metric block of the Reports & Analytics page (`src/app.py:683`-`694`):
when the snapshot is empty the page only shows an info message
(`src/app.py:906`); otherwise it renders four computed metrics and then a
fifth `st.metric("Joint Ventures", jv_count)` whose value is the unbound
name `jv_count`, so evaluation stops with a Python `NameError` (message
`NameError: name jv_count is not defined`, apostrophes elided), which no
surrounding `try` catches. -/
def reports_metrics (entities_df : List Entity) :
    Except String (List (String × Nat)) :=
  if entities_df.isEmpty then
    Except.ok []
  else
    let computed :=
      [("Total Entities", entities_df.length),
       ("Active Entities", (entities_df.filter (fun e => e.status == "Active")).length),
       ("Parent Entities", (entities_df.filter (fun e => e.parent_abn.isNone)).length),
       ("Joint Ventures", (entities_df.filter (fun e => e.entity_type == "JV")).length)]
    match jv_count? with
    | some n => Except.ok (computed ++ [("Joint Ventures", n)])
    | none => Except.error "NameError: name jv_count is not defined"

/-- Modelled from the spec: `src/app.py` is one of three program variants and
carries no `consolidation_percentage` column (`src/app.py:62`-`76`) or input
(`src/app.py:502`-`541`); the spec attributes the field to the latest
variant, whose code is not under `src/`.  A sector mapping record of that
variant: the optional consolidation percentage is the only field the claim
constrains, the rest follow the `sector_abn_mapping` schema. -/
structure SectorMapping where
  mapping_id : String
  reporting_group_code : String
  sector_code : String
  abn : String
  consolidation_percentage : Option ℚ
  effective_date : String
  end_date : Option String
  is_active : Bool
deriving DecidableEq

/-- Modelled from the spec: input validation of the latest variant's Add
Mapping form accepts an entered consolidation percentage only when it lies
in the closed interval `[0, 100]` (an absent value is allowed). -/
def consolidation_in_range (p : Option ℚ) : Bool :=
  match p with
  | none => true
  | some v => decide (0 ≤ v) && decide (v ≤ 100)

/-- Modelled from the spec: the latest variant's Add Mapping submit handler,
which stores the candidate record iff its consolidation percentage passes
`consolidation_in_range` and otherwise rejects the input, persisting
nothing. -/
def add_mapping_submit (mappings_df : List SectorMapping) (m : SectorMapping) :
    Except String (List SectorMapping) :=
  if consolidation_in_range m.consolidation_percentage then
    Except.ok (mappings_df ++ [m])
  else
    Except.error "Consolidation percentage must be between 0 and 100"

/-- A pandas DataFrame: its ordered column labels and its row objects.  A
read of an empty table yields a frame with the schema's columns and no rows
(`read_sql_query` takes the labels from `cursor.description`); the literal
`pd.DataFrame()` has neither columns nor rows. -/
structure DFrame (α : Type) where
  columns : List String
  rows : List α
deriving DecidableEq

/-- Embeds the `pd.DataFrame()` returned at `src/app.py:91`: no columns, no
rows. -/
def emptyDataFrame {α : Type} : DFrame α := ⟨[], []⟩

/-- The column labels `read_sql_query` reports for
`SELECT * FROM legal_entities`, also when the result set is empty. -/
def legal_entities_columns : List String :=
  ["abn", "entity_name", "parent_abn", "entity_type", "status",
   "effective_date", "end_date", "created_by", "created_date",
   "modified_by", "modified_date"]

/-- Embeds `load_data(table_name)` (`src/app.py:82`-`91`): the outcome of the
underlying `SELECT * FROM table` read is the `Except`-valued argument; on
success the read frame is returned, on any exception an error message is
shown and the column-less `pd.DataFrame()` is returned. -/
def load_data {α : Type} (fetch : Except String (DFrame α)) : DFrame α :=
  match fetch with
  | Except.ok df => df
  | Except.error _ => emptyDataFrame

/-- The Dashboard consumer at `src/app.py:225`:
`len(entities_df[entities_df['status'] == 'Active'])`.  Indexing the
`status` column of a frame that lacks it raises a `KeyError` (message
`KeyError: status`, quotes elided), which nothing on the page catches; on a
frame with the column it counts the matching rows. -/
def dashboard_active_count (entities_df : DFrame Entity) : Except String Nat :=
  if entities_df.columns.contains "status" then
    Except.ok ((entities_df.rows.filter (fun e => e.status == "Active")).length)
  else
    Except.error "KeyError: status"

/-! ## Concrete fixtures used by the counterexamples and witnesses -/

/-- A root entity (NULL `parent_abn`). -/
def rootA : Entity := mkEnt "10000000001" "Root A" none "Parent" "Active"

/-- A second, independent root entity. -/
def rootB : Entity := mkEnt "20000000002" "Root B" none "Parent" "Active"

/-- A leaf child of `rootA`. -/
def childC : Entity := mkEnt "50000000005" "Child C" (some "10000000001") "Subsidiary" "Active"

/-- Half of a manufactured 2-cycle: its parent is `entY`. -/
def entX : Entity := mkEnt "30000000003" "X" (some "40000000004") "Subsidiary" "Active"

/-- The other half of the 2-cycle: its parent is `entX`. -/
def entY : Entity := mkEnt "40000000004" "Y" (some "30000000003") "Subsidiary" "Active"

/-- A root whose two children share the display name `"N"`. -/
def rootR : Entity := mkEnt "00000000000" "R" none "Parent" "Active"

/-- Child of `rootR`, name `"N"`, the smaller identifier. -/
def twinLow : Entity := mkEnt "10000000009" "N" (some "00000000000") "Subsidiary" "Active"

/-- Child of `rootR`, name `"N"`, the larger identifier. -/
def twinHigh : Entity := mkEnt "20000000008" "N" (some "00000000000") "Subsidiary" "Active"

-- sanity: called at a string key, the recursion does walk a subtree in
-- pre-order with depths; called from the page driver (None key), it emits
-- nothing even for the 3-level sample chain R -> A -> B
example :
    build_tree 3
      [mkEnt "10000000001" "R" none "Parent" "Active",
       mkEnt "20000000002" "A" (some "10000000001") "Subsidiary" "Active",
       mkEnt "30000000003" "B" (some "20000000002") "Subsidiary" "Active"]
      (some "10000000001") 1 =
      [(mkEnt "20000000002" "A" (some "10000000001") "Subsidiary" "Active", 1),
       (mkEnt "30000000003" "B" (some "20000000002") "Subsidiary" "Active", 2)] := by
  decide
example :
    view_hierarchy_output
      [mkEnt "10000000001" "R" none "Parent" "Active",
       mkEnt "20000000002" "A" (some "10000000001") "Subsidiary" "Active",
       mkEnt "30000000003" "B" (some "20000000002") "Subsidiary" "Active"] = [] := by
  decide

/-! ## Claims -/

/-- C1: every call the driver makes is `build_tree(None, 0)`
(`src/app.py:317`-`318`, likewise `745`-`747`), and its filter
`parent_abn == None` matches no row, so on the all-pass filter over the
acyclic two-entity snapshot `[rootA, childC]` the page renders nothing:
every entity of the filtered snapshot is visited zero times, never once
(the claim's "exactly once" fails for every entity). -/
theorem tree_view_renders_nothing :
    filtered_entities [rootA, childC] ["Active"] ["Parent", "Subsidiary"] =
      [rootA, childC]
    ∧ view_hierarchy_output
        (filtered_entities [rootA, childC] ["Active"] ["Parent", "Subsidiary"]) = []
    ∧ (view_hierarchy_output
        (filtered_entities [rootA, childC] ["Active"] ["Parent", "Subsidiary"])).count
        (rootA, 0) = 0 := by
  decide

/-- C2: on the snapshot holding only the manufactured 2-cycle
`X.parent = Y`, `Y.parent = X`, the root set is empty, so the traversal
terminates immediately with empty output: neither entity is printed, and no
`CycleDetected` (or any other) error is raised — the code has no
visited-set guard at all (`src/app.py:306`-`318`). -/
theorem cycle_snapshot_silently_empty :
    view_hierarchy_output [entX, entY] = [] := by
  decide

/-- C9: on a non-empty snapshot the Reports & Analytics metric block reads
the unbound name `jv_count` (`src/app.py:694`) and evaluation fails with an
uncaught `NameError` instead of rendering an inline message. -/
theorem reports_metrics_name_error :
    [rootA].isEmpty = false
    ∧ reports_metrics [rootA] =
        Except.error "NameError: name jv_count is not defined" :=
  ⟨rfl, rfl⟩

/-- C3 counterexample: the identifier check at `src/app.py:343` tests only
the length, so the 11-character all-letter identifier `"abcdefghijk"` — not
an all-digit string — is accepted and inserted, refuting the claim that
every identifier failing the 11-digit numeric format is rejected. -/
theorem eleven_char_nondigit_abn_accepted :
    ("abcdefghijk".length = 11 ∧ "abcdefghijk".data.all Char.isDigit = false)
    ∧ (add_entity_submit [] "abcdefghijk" "Ghost Corp" "Subsidiary" "None"
        "Active" "2024-01-01").isOk = true := by
  decide

/-- C3 amended: the Add Entity handler rejects a candidate with the
invalid-identifier error exactly when its identifier is not 11 characters
long (the empty string included); the characters themselves are never
inspected, so any 11-character string passes the identifier check. -/
theorem invalid_abn_error_iff_length_ne_eleven
    (entities_df : List Entity)
    (new_abn new_entity_name new_entity_type new_parent_abn new_status
     new_effective_date : String) :
    add_entity_submit entities_df new_abn new_entity_name new_entity_type
        new_parent_abn new_status new_effective_date =
      Except.error AddErr.invalidAbn
    ↔ new_abn.length ≠ 11 := by
  unfold add_entity_submit
  split_ifs with h1 h2 h3
  · simp only [true_iff]
    rcases h1 with h | h
    · subst h; decide
    · exact h
  · push_neg at h1
    simp [h1.2]
  · push_neg at h1
    simp [h1.2]
  · push_neg at h1
    simp [h1.2]

/-- C3 witness: a 3-character identifier is rejected with the
invalid-identifier error. -/
theorem invalid_abn_error_witness :
    add_entity_submit [] "123" "Short Co" "Parent" "None" "Active"
      "2024-01-01" = Except.error AddErr.invalidAbn :=
  (invalid_abn_error_iff_length_ne_eleven [] "123" "Short Co" "Parent" "None"
    "Active" "2024-01-01").mpr (by decide)

/-- C4 counterexample: the Add Entity handler performs no check that the
parent reference names an existing entity: a candidate whose `parent_abn` is
`"99999999999"`, which matches no identifier in the snapshot `[rootA]`, is
accepted and inserted, refuting the unknown-parent half of the claim. -/
theorem unknown_parent_accepted :
    ("99999999999" ∈ [rootA].map (·.abn)) = False
    ∧ add_entity_submit [rootA] "50000000005" "Orphan Pty" "Subsidiary"
        "99999999999" "Active" "2024-01-01" =
      Except.ok [rootA,
        ⟨"50000000005", "Orphan Pty", some "99999999999", "Subsidiary",
         "Active", "2024-01-01", none, some "streamlit_user", none, none,
         none⟩] := by
  constructor
  · simp [rootA, mkEnt]
  · rfl

/-- C4 amended: the Add Entity handler rejects a candidate whose identifier
already occurs in the snapshot (given the earlier format and name checks
pass), and on every validation failure the handler returns before the
INSERT, leaving the stored snapshot unchanged; the parent reference is not
validated against existing identifiers. -/
theorem duplicate_abn_rejected_and_no_persist
    (entities_df : List Entity)
    (new_abn new_entity_name new_entity_type new_parent_abn new_status
     new_effective_date : String) :
    (new_abn.length = 11 → new_entity_name ≠ "" →
      new_abn ∈ entities_df.map (·.abn) →
      add_entity_submit entities_df new_abn new_entity_name new_entity_type
          new_parent_abn new_status new_effective_date =
        Except.error (AddErr.duplicateAbn new_abn))
    ∧ (∀ err, add_entity_submit entities_df new_abn new_entity_name
          new_entity_type new_parent_abn new_status new_effective_date =
        Except.error err →
        add_entity_step entities_df new_abn new_entity_name new_entity_type
          new_parent_abn new_status new_effective_date = entities_df) := by
  constructor
  · intro hlen hname hmem
    have habn : new_abn ≠ "" := by
      intro h; subst h; exact absurd hlen (by decide)
    have hne : ¬ entities_df.isEmpty := by
      rcases List.mem_map.mp hmem with ⟨e, he, _⟩
      cases entities_df with
      | nil => cases he
      | cons a l => simp
    unfold add_entity_submit
    rw [if_neg (by push_neg; exact ⟨habn, by rw [hlen]⟩),
        if_neg (by simpa using hname),
        if_pos ⟨hne, hmem⟩]
  · intro err herr
    unfold add_entity_step
    rw [herr]

/-- C4 witness: inserting the existing identifier of `rootA` into the
snapshot `[rootA]` fails with the duplicate error and leaves the snapshot
unchanged. -/
theorem duplicate_abn_rejected_witness :
    add_entity_submit [rootA] "10000000001" "Dup Name" "Parent" "None"
        "Active" "2024-01-01" =
      Except.error (AddErr.duplicateAbn "10000000001")
    ∧ add_entity_step [rootA] "10000000001" "Dup Name" "Parent" "None"
        "Active" "2024-01-01" = [rootA] :=
  have h1 := (duplicate_abn_rejected_and_no_persist [rootA] "10000000001"
    "Dup Name" "Parent" "None" "Active" "2024-01-01").1 (by decide)
    (by decide) (by decide)
  ⟨h1, (duplicate_abn_rejected_and_no_persist [rootA] "10000000001"
    "Dup Name" "Parent" "None" "Active" "2024-01-01").2 _ h1⟩

/-- The children test of the Delete handler: no row of the snapshot points
at `id` iff the filtered children list is empty. -/
theorem delete_children_isEmpty_iff (df : List Entity) (id : String) :
    (df.filter (fun e => e.parent_abn == some id)).isEmpty = true
    ↔ ∀ e ∈ df, e.parent_abn ≠ some id := by
  rw [List.isEmpty_iff, List.filter_eq_nil_iff]
  simp

/-- When no row points at `id`, the Delete action stores the snapshot
filtered to the rows whose `abn` differs from `id`. -/
theorem delete_step_eq_filter (df : List Entity) (id : String)
    (h : ∀ e ∈ df, e.parent_abn ≠ some id) :
    delete_entity_step df id = df.filter (fun e => e.abn ≠ id) := by
  have hc := (delete_children_isEmpty_iff df id).mpr h
  simp [delete_entity_step, delete_entity_click, hc]

/-- Dropping the unique row keyed `id` shortens the snapshot by exactly
one. -/
theorem length_filter_ne_abn (df : List Entity) (id : String)
    (hnodup : (df.map (·.abn)).Nodup) (hmem : id ∈ df.map (·.abn)) :
    df.length = (df.filter (fun e => e.abn ≠ id)).length + 1 := by
  induction df with
  | nil => simp at hmem
  | cons e l ih =>
    simp only [List.map_cons, List.nodup_cons] at hnodup
    simp only [List.map_cons, List.mem_cons] at hmem
    by_cases h : e.abn = id
    · have hid : id ∉ l.map (·.abn) := h ▸ hnodup.1
      have hl : l.filter (fun e => e.abn ≠ id) = l := by
        rw [List.filter_eq_self]
        intro a ha
        simp only [ne_eq, decide_eq_true_eq]
        intro hEq
        exact hid (List.mem_map.mpr ⟨a, ha, hEq⟩)
      rw [List.filter_cons_of_neg (by simp [h]), hl, List.length_cons]
    · have hmem' : id ∈ l.map (·.abn) := by
        rcases hmem with h' | h'
        · exact absurd h'.symm h
        · exact h'
      rw [List.filter_cons_of_pos (by simp [h]), List.length_cons,
        List.length_cons, ih hnodup.2 hmem']

/-- C5: the Delete handler rejects exactly when some row of the snapshot has
`parent_abn == selected_abn`; on rejection the stored snapshot is unchanged,
and on acceptance the stored snapshot is the old one minus the rows keyed by
the selected identifier — with unique identifiers, exactly the one selected
row. -/
theorem delete_entity_spec (df : List Entity) (id : String) :
    ((delete_entity_click df id).isOk = false ↔ ∃ e ∈ df, e.parent_abn = some id)
    ∧ (∀ msg, delete_entity_click df id = Except.error msg →
        delete_entity_step df id = df)
    ∧ ((∀ e ∈ df, e.parent_abn ≠ some id) →
        delete_entity_step df id = df.filter (fun e => e.abn ≠ id))
    ∧ ((df.map (·.abn)).Nodup → id ∈ df.map (·.abn) →
        df.length = (delete_entity_step df id).length + 1
        ∨ delete_entity_step df id = df) := by
  refine ⟨?_, ?_, ?_, ?_⟩
  · have hkey := (delete_children_isEmpty_iff df id).not
    push_neg at hkey
    unfold delete_entity_click
    split_ifs with h
    · exact iff_of_false (by simp [Except.isOk, Except.toBool])
        (by simpa using (delete_children_isEmpty_iff df id).mp h)
    · exact iff_of_true rfl (hkey.mp h)
  · intro msg hmsg
    unfold delete_entity_step
    rw [hmsg]
  · exact delete_step_eq_filter df id
  · intro hnodup hmem
    by_cases hall : ∀ e ∈ df, e.parent_abn ≠ some id
    · left
      rw [delete_step_eq_filter df id hall]
      exact length_filter_ne_abn df id hnodup hmem
    · right
      have hc : ¬ (df.filter (fun e => e.parent_abn == some id)).isEmpty = true :=
        fun h => hall ((delete_children_isEmpty_iff df id).mp h)
      unfold delete_entity_step delete_entity_click
      rw [if_pos hc]

/-- C5 witness: deleting the leaf `childC` from `[rootA, childC]` is
accepted (it has no children) and removes exactly that row; the
characterisation also certifies that deleting `rootA` would be rejected. -/
theorem delete_entity_spec_witness :
    ((delete_entity_click [rootA, childC] "10000000001").isOk = false)
    ∧ delete_entity_step [rootA, childC] "50000000005" =
        [rootA, childC].filter (fun e => e.abn ≠ "50000000005")
    ∧ [rootA, childC].length =
        (delete_entity_step [rootA, childC] "50000000005").length + 1 :=
  ⟨(delete_entity_spec [rootA, childC] "10000000001").1.mpr
      ⟨childC, by decide, by decide⟩,
   (delete_entity_spec [rootA, childC] "50000000005").2.2.1 (by decide),
   ((delete_entity_spec [rootA, childC] "50000000005").2.2.2 (by decide)
      (by decide)).resolve_right (by decide)⟩

/-- C6 counterexample: `sort_values('entity_name')` sorts by name only.  The
two children of `rootR` share the name `"N"`; presented with `twinHigh`
(identifier `20000000008`) before `twinLow` (identifier `10000000009`), the
sorted child set at the node key keeps `twinHigh` first — although the names
tie and `twinLow` has the smaller identifier — and on the permuted snapshot
with `twinLow` first the same child set comes out in the other order: the
claimed identifier-ascending tie-break does not exist. -/
theorem sibling_tie_not_id_ascending :
    childrenOf [rootR, twinHigh, twinLow] (some "00000000000") =
      [twinHigh, twinLow]
    ∧ childrenOf [rootR, twinLow, twinHigh] (some "00000000000") =
      [twinLow, twinHigh]
    ∧ twinHigh.entity_name = twinLow.entity_name
    ∧ twinHigh.abn ≠ twinLow.abn
    ∧ lexLE twinLow.abn.data twinHigh.abn.data = true
    ∧ List.Perm [rootR, twinHigh, twinLow] [rootR, twinLow, twinHigh] :=
  ⟨by decide, by decide, by decide, by decide, by decide,
   List.Perm.cons rootR (List.Perm.swap twinLow twinHigh [])⟩

/-- At the `None` key (the only key the page driver ever passes) the child
filter matches no row, so the sorted child set is empty. -/
theorem childrenOf_none (l : List Entity) : childrenOf l none = [] := by
  have h : l.filter (fun e => seriesEqScalar e.parent_abn none) = [] :=
    List.filter_eq_nil_iff.mpr (fun a _ => by simp [seriesEqScalar])
  unfold childrenOf
  rw [h]
  rfl

/-- The tree view renders no lines for any snapshot: every driver call is
`build_tree(None, 0)` and the `None` comparison selects no children. -/
theorem view_hierarchy_output_nil (filtered_df : List Entity) :
    view_hierarchy_output filtered_df = [] := by
  have hbt : build_tree (filtered_df.length + 1) filtered_df none 0 = [] := by
    unfold build_tree
    rw [childrenOf_none]
    rfl
  unfold view_hierarchy_output
  simp only [hbt]
  simp

/-- C6 amended: the sort the traversal applies to a node's candidate child
set is exactly the matching filtered rows ordered weakly ascending by
display name — there is no identifier tie-break, and equal-named siblings
keep the snapshot's input order, so the sorted child set depends on the
input order; the page-level traversal output itself is empty for every
snapshot (the driver's `None` key matches nothing), hence trivially
identical across re-runs. -/
theorem children_sorted_by_name (filtered_df : List Entity)
    (parent_abn : Option String) :
    List.Sorted nameLE (childrenOf filtered_df parent_abn)
    ∧ (childrenOf filtered_df parent_abn).Perm
        (filtered_df.filter (fun e => seriesEqScalar e.parent_abn parent_abn))
    ∧ view_hierarchy_output filtered_df = [] :=
  ⟨List.sorted_insertionSort nameLE _, List.perm_insertionSort nameLE _,
   view_hierarchy_output_nil filtered_df⟩

/-- C7: the Update handler rewrites only `entity_name`, `entity_type`,
`status`, `modified_by` and `modified_date` of the selected row: the key,
parent link, validity dates and creation audit fields of every row are
preserved, rows with a different key are untouched, and no row is added or
removed. -/
theorem update_entity_frame (df : List Entity)
    (selected_abn edit_name edit_type edit_status md : String) :
    (update_entity_submit df selected_abn edit_name edit_type edit_status md).map
        frameFields = df.map frameFields
    ∧ (∀ e ∈ df, e.abn ≠ selected_abn →
        e ∈ update_entity_submit df selected_abn edit_name edit_type edit_status md)
    ∧ (update_entity_submit df selected_abn edit_name edit_type edit_status
        md).length = df.length := by
  refine ⟨?_, ?_, ?_⟩
  · unfold update_entity_submit
    rw [List.map_map]
    apply List.map_congr_left
    intro e _
    by_cases h : e.abn = selected_abn <;> simp [frameFields, h]
  · intro e he hne
    unfold update_entity_submit
    exact List.mem_map.mpr ⟨e, he, by rw [if_neg hne]⟩
  · unfold update_entity_submit
    exact List.length_map _ _

/-- C7 witness: updating `childC` in `[rootA, childC]` keeps every frame
field of every row and leaves the row of `rootA` in place. -/
theorem update_entity_frame_witness :
    (update_entity_submit [rootA, childC] "50000000005" "New Name" "Branch"
        "Inactive" "2024-02-02").map frameFields =
      [rootA, childC].map frameFields
    ∧ rootA ∈ update_entity_submit [rootA, childC] "50000000005" "New Name"
        "Branch" "Inactive" "2024-02-02" :=
  ⟨(update_entity_frame [rootA, childC] "50000000005" "New Name" "Branch"
      "Inactive" "2024-02-02").1,
   (update_entity_frame [rootA, childC] "50000000005" "New Name" "Branch"
      "Inactive" "2024-02-02").2.1 rootA (by decide) (by decide)⟩

/-- A mapping candidate carrying the out-of-range consolidation percentage
150. -/
def overMapping : SectorMapping :=
  ⟨"MAPX1234", "FIN_INT", "F1N01", "91000000001", some 150, "2024-01-01",
   none, true⟩

/-- C8 (spec-modelled): if every stored mapping's consolidation percentage,
when present, lies in `[0, 100]`, then after any accepted insert that
invariant still holds for every stored mapping; and a candidate whose
percentage lies outside `[0, 100]` is rejected by input validation. -/
theorem consolidation_percentage_range (mappings_df : List SectorMapping)
    (m : SectorMapping) :
    ((∀ m' ∈ mappings_df, ∀ v,
        m'.consolidation_percentage = some v → 0 ≤ v ∧ v ≤ 100) →
      ∀ stored, add_mapping_submit mappings_df m = Except.ok stored →
        ∀ m' ∈ stored, ∀ v,
          m'.consolidation_percentage = some v → 0 ≤ v ∧ v ≤ 100)
    ∧ (∀ v, m.consolidation_percentage = some v → (v < 0 ∨ 100 < v) →
        add_mapping_submit mappings_df m =
          Except.error "Consolidation percentage must be between 0 and 100") := by
  constructor
  · intro hinv stored hok m' hm' v hv
    unfold add_mapping_submit at hok
    split_ifs at hok with hr
    · cases hok
      rcases List.mem_append.mp hm' with h | h
      · exact hinv m' h v hv
      · rcases List.mem_singleton.mp h with rfl
        rw [hv] at hr
        simpa [consolidation_in_range] using hr
  · intro v hv hout
    unfold add_mapping_submit
    rw [if_neg]
    rw [hv]
    simp only [consolidation_in_range, Bool.and_eq_true, decide_eq_true_eq,
      not_and]
    intro h0
    rcases hout with h | h
    · exact absurd h0 (not_le.mpr h)
    · exact not_le.mpr h

/-- C8 witness: the candidate with percentage 150 is rejected. -/
theorem consolidation_percentage_range_witness :
    add_mapping_submit [] overMapping =
      Except.error "Consolidation percentage must be between 0 and 100" :=
  (consolidation_percentage_range [] overMapping).2 150 rfl
    (Or.inr (by norm_num))

/-- C10 counterexample: a failed read of `legal_entities` is observably
different from a successful read of the empty table — the failure path
returns the column-less `pd.DataFrame()` while the empty-table frame keeps
the schema columns, and the Dashboard's unguarded `status` column access
(`src/app.py:225`) raises an uncaught `KeyError` on the former but counts
zero rows on the latter, so consumers do not simply proceed as if the table
had no rows. -/
theorem failed_read_distinguishable_from_empty_table :
    load_data (Except.error "database is locked" : Except String (DFrame Entity)) ≠
      load_data (Except.ok (⟨legal_entities_columns, []⟩ : DFrame Entity))
    ∧ dashboard_active_count
        (load_data (Except.error "database is locked" : Except String (DFrame Entity))) =
      Except.error "KeyError: status"
    ∧ dashboard_active_count
        (load_data (Except.ok (⟨legal_entities_columns, []⟩ : DFrame Entity))) =
      Except.ok 0 :=
  ⟨by decide, rfl, rfl⟩

/-- C10 amended: whenever the underlying read fails, `load_data` shows a
message and returns the column-less `pd.DataFrame()` — a frame with no rows
— but this is not indistinguishable from an empty table: the failure frame
lacks the schema columns, so a consumer that indexes a column, such as the
Dashboard's active-entity count, fails with `KeyError` on a failed read
while proceeding over zero rows on an empty table. -/
theorem load_data_failure_returns_columnless (msg : String) :
    load_data (Except.error msg : Except String (DFrame Entity)) = emptyDataFrame
    ∧ (load_data (Except.error msg : Except String (DFrame Entity))).rows = []
    ∧ dashboard_active_count
        (load_data (Except.error msg : Except String (DFrame Entity))) =
      Except.error "KeyError: status" :=
  ⟨rfl, rfl, rfl⟩
